import Mathlib

/-!
Shallow embedding of the AlpineForecast environmental suitability scoring
engine.

The embedding covers the client-side scorer
(`client/src/lib/probability-calculator.ts`: `calculateSpeciesProbability`,
`calculateLocationProbability`, `getSeasonalScore`, `getSingleSeasonScore`)
and the server-side per-species scorer of the probability-analysis endpoint
(`server/routes.ts`: the `speciesAnalysis` computation, `getSeasonScore`,
`getSingleSeasonScore`).

Modelling conventions:
- JavaScript numbers are embedded as exact rationals (`ℚ`) for weather
  readings and as integers (`ℤ`) for elevations and days-since-rainfall,
  matching the column types of the shared schema (`real` resp. `integer`).
- Nullable columns become `Option`; JavaScript truthiness is modelled
  explicitly: a number is truthy iff present and nonzero, a string is
  truthy iff present and nonempty, an array is truthy iff present
  (an empty array is truthy).
- `Math.abs`, `Math.round`, `String.prototype.split`,
  `String.prototype.includes`, `String.prototype.trim` and
  `String.prototype.toLowerCase` are given executable counterparts
  (`jsAbs`, `jsRound`, `jsSplit`, `jsIncludes`, `jsTrim`, `jsToLower`).
- The ambient wall-clock month (`new Date().getMonth()`, 0-indexed with
  January = 0 and December = 11) is injected as an explicit `currentMonth`
  parameter.
-/

namespace AlpineForecast

/-! ## JavaScript primitives -/

/-- Embeds `Math.abs` on exact rationals. -/
def jsAbs (x : ℚ) : ℚ := if x < 0 then -x else x

/-- Embeds `Math.round` (round half toward positive infinity) on exact rationals. -/
def jsRound (x : ℚ) : ℤ := ⌊x + 0.5⌋

/-- ASCII lower-casing of one character, as `toLowerCase` acts on the
letters appearing in the catalog vocabulary. -/
def charLower (c : Char) : Char :=
  if 'A' ≤ c ∧ c ≤ 'Z' then Char.ofNat (c.toNat + 32) else c

/-- Embeds `String.prototype.toLowerCase`. -/
def jsToLower (s : String) : String := String.mk (s.data.map charLower)

/-- Does `needle` occur at the head of `hay`? (helper for `jsIncludes`). -/
def startsWithL : List Char → List Char → Bool
  | [], _ => true
  | _ :: _, [] => false
  | a :: as, b :: bs => a = b && startsWithL as bs

/-- Does `needle` occur somewhere in `hay`? (helper for `jsIncludes`). -/
def occursInL (hay needle : List Char) : Bool :=
  match hay with
  | [] => needle.isEmpty
  | _ :: t => startsWithL needle hay || occursInL t needle

/-- Embeds `a.includes(b)`: substring containment. -/
def jsIncludes (a b : String) : Bool := occursInL a.data b.data

/-- Whitespace characters removed by `String.prototype.trim` (the ones that
can occur in the catalog data). -/
def isSpaceChar (c : Char) : Bool := c = ' ' || c = '\t' || c = '\n' || c = '\r'

/-- Embeds `String.prototype.trim`: drop leading and trailing whitespace. -/
def jsTrim (s : String) : String :=
  String.mk (((s.data.dropWhile isSpaceChar).reverse.dropWhile isSpaceChar).reverse)

/-- Split a character list at every occurrence of the separator `c`;
always returns at least one (possibly empty) piece, like `split` in
JavaScript. -/
def splitCharList (c : Char) : List Char → List (List Char)
  | [] => [[]]
  | x :: xs =>
    let rest := splitCharList c xs
    if x = c then [] :: rest
    else
      match rest with
      | [] => [[x]]
      | h :: t => (x :: h) :: t

/-- Embeds `s.split(c)` for a single-character separator. -/
def jsSplit (s : String) (c : Char) : List String :=
  (splitCharList c s.data).map fun l => String.mk l

/-! ## Truthiness -/

/-- JavaScript truthiness of an optional number: present and nonzero. -/
def truthyQ : Option ℚ → Bool
  | none => false
  | some x => decide (x ≠ 0)

/-- JavaScript truthiness of an optional integer-valued number. -/
def truthyZ : Option ℤ → Bool
  | none => false
  | some x => decide (x ≠ 0)

/-- JavaScript truthiness of an optional string: present and nonempty. -/
def truthyS : Option String → Bool
  | none => false
  | some s => decide (s ≠ "")

/-- Value extraction used after a truthiness guard (the guard guarantees the
`some` case is taken). -/
def qval (x : Option ℚ) : ℚ := x.getD 0

/-- Value extraction for optional integers after a truthiness guard. -/
def zval (x : Option ℤ) : ℤ := x.getD 0

/-- Value extraction for optional strings after a truthiness guard. -/
def sval (x : Option String) : String := x.getD ""

/-! ## Data model (shared/schema.ts, the columns the engine reads) -/

/-- A mushroom species record (`mushroom_species` table). -/
structure MushroomSpecies where
  name : String
  scientificName : String
  season : String
  optimalTemp : Option ℚ
  optimalHumidity : Option ℚ
  soilTempMin : Option ℚ
  treeAssociations : Option (List String)
  forestTypes : Option (List String)
  elevationMin : Option ℤ
  elevationMax : Option ℤ
  deriving DecidableEq, Repr

/-- A foraging location record (`foraging_locations` table; only the columns
the scorer reads). -/
structure ForagingLocation where
  elevation : Option ℤ
  forestType : Option String
  treeSpecies : Option (List String)
  deriving DecidableEq, Repr

/-- A weather snapshot (`weather_data` table; only the columns the scorer
reads). -/
structure WeatherData where
  temperature : Option ℚ
  humidity : Option ℚ
  soilTemperature : Option ℚ
  lastRainfall : Option ℤ
  deriving DecidableEq, Repr

/-! ## Client factor scorers
(`client/src/lib/probability-calculator.ts`, `calculateSpeciesProbability`) -/

/-- Temperature factor (0-25 points). -/
def tempFactor (species : MushroomSpecies) (weather : Option WeatherData) : ℕ :=
  let wt := weather.bind (·.temperature)
  if truthyQ wt && truthyQ species.optimalTemp then
    let tempDiff := jsAbs (qval wt - qval species.optimalTemp)
    if tempDiff ≤ 2 then 25
    else if tempDiff ≤ 5 then 20
    else if tempDiff ≤ 8 then 15
    else if tempDiff ≤ 12 then 10
    else 5
  else if truthyQ wt then
    if 15 ≤ qval wt ∧ qval wt ≤ 22 then 20
    else if 10 ≤ qval wt ∧ qval wt ≤ 25 then 15
    else if 5 ≤ qval wt ∧ qval wt ≤ 30 then 10
    else 5
  else 15

/-- Humidity factor (0-20 points). -/
def humidityFactor (species : MushroomSpecies) (weather : Option WeatherData) : ℕ :=
  let wh := weather.bind (·.humidity)
  if truthyQ wh && truthyQ species.optimalHumidity then
    let humidityDiff := jsAbs (qval wh - qval species.optimalHumidity)
    if humidityDiff ≤ 5 then 20
    else if humidityDiff ≤ 10 then 15
    else if humidityDiff ≤ 15 then 12
    else if humidityDiff ≤ 20 then 8
    else 5
  else if truthyQ wh then
    if 80 ≤ qval wh then 20
    else if 70 ≤ qval wh then 15
    else if 60 ≤ qval wh then 10
    else if 50 ≤ qval wh then 5
    else 2
  else 12

/-- Soil temperature factor (0-15 points). -/
def soilTempFactor (species : MushroomSpecies) (weather : Option WeatherData) : ℕ :=
  let ws := weather.bind (·.soilTemperature)
  if truthyQ ws && truthyQ species.soilTempMin then
    if qval species.soilTempMin + 8 ≤ qval ws then 15
    else if qval species.soilTempMin + 5 ≤ qval ws then 12
    else if qval species.soilTempMin + 2 ≤ qval ws then 10
    else if qval species.soilTempMin ≤ qval ws then 8
    else if qval species.soilTempMin - 3 ≤ qval ws then 5
    else 2
  else if truthyQ ws then
    if 12 ≤ qval ws then 12
    else if 8 ≤ qval ws then 10
    else if 5 ≤ qval ws then 6
    else 3
  else 8

/-- Recent rainfall factor (0-15 points); note the source guards with
`!== undefined && !== null`, not with truthiness, so a reading of zero days
is scored, not defaulted. -/
def rainfallFactor (weather : Option WeatherData) : ℕ :=
  match weather.bind (·.lastRainfall) with
  | some d =>
    if d ≤ 2 then 15
    else if d ≤ 4 then 12
    else if d ≤ 7 then 10
    else if d ≤ 14 then 6
    else if d ≤ 21 then 3
    else 1
  | none => 8

/-- Elevation factor (0-10 points). -/
def elevationFactor (species : MushroomSpecies) (location : ForagingLocation) : ℕ :=
  if truthyZ location.elevation && truthyZ species.elevationMin
      && truthyZ species.elevationMax then
    let e := zval location.elevation
    if zval species.elevationMin ≤ e ∧ e ≤ zval species.elevationMax then 10
    else
      let minDiff := |e - zval species.elevationMin|
      let maxDiff := |e - zval species.elevationMax|
      let closestDiff := min minDiff maxDiff
      if closestDiff ≤ 50 then 9
      else if closestDiff ≤ 100 then 8
      else if closestDiff ≤ 200 then 6
      else if closestDiff ≤ 400 then 4
      else if closestDiff ≤ 600 then 2
      else 1
  else if truthyZ location.elevation then
    let e := zval location.elevation
    if 400 ≤ e ∧ e ≤ 1200 then 8
    else if 200 ≤ e ∧ e ≤ 1600 then 6
    else if 100 ≤ e ∧ e ≤ 2000 then 4
    else 2
  else 6

/-- One entry of the client forest-type matcher (the `some` callback). -/
def forestTypeMatch (locForestType speciesType : String) : Bool :=
  let locationType := jsToLower locForestType
  let speciesTypeL := jsToLower speciesType
  locationType = speciesTypeL
  || (jsIncludes locationType "mixed" && jsIncludes speciesTypeL "mixed")
  || (jsIncludes locationType "conifer"
      && (jsIncludes speciesTypeL "conifer" || jsIncludes speciesTypeL "softwood"))
  || (jsIncludes locationType "hardwood"
      && (jsIncludes speciesTypeL "hardwood" || jsIncludes speciesTypeL "deciduous"))
  || (jsIncludes locationType "deciduous" && jsIncludes speciesTypeL "hardwood")

/-- Forest type factor (0-10 points). -/
def forestTypeFactor (species : MushroomSpecies) (location : ForagingLocation) : ℕ :=
  if truthyS location.forestType && species.forestTypes.isSome
      && decide (0 < (species.forestTypes.getD []).length) then
    if (species.forestTypes.getD []).any (forestTypeMatch (sval location.forestType))
    then 10 else 3
  else if truthyS location.forestType then
    let forestType := jsToLower (sval location.forestType)
    if jsIncludes forestType "mixed" then 8
    else if jsIncludes forestType "conifer" || jsIncludes forestType "hardwood" then 6
    else 4
  else 5

/-- One entry of the client tree matcher (the inner `some` callback). -/
def treeMatch (tree assoc : String) : Bool :=
  let treeStr := jsToLower tree
  let assocStr := jsToLower assoc
  treeStr = assocStr
  || ((jsIncludes treeStr "spruce" || jsIncludes treeStr "fichte")
      && (jsIncludes assocStr "spruce" || jsIncludes assocStr "picea"))
  || ((jsIncludes treeStr "beech" || jsIncludes treeStr "buche")
      && (jsIncludes assocStr "beech" || jsIncludes assocStr "fagus"))
  || ((jsIncludes treeStr "fir" || jsIncludes treeStr "tanne")
      && (jsIncludes assocStr "fir" || jsIncludes assocStr "abies"))
  || ((jsIncludes treeStr "pine" || jsIncludes treeStr "kiefer")
      && (jsIncludes assocStr "pine" || jsIncludes assocStr "pinus"))
  || ((jsIncludes treeStr "oak" || jsIncludes treeStr "eiche")
      && (jsIncludes assocStr "oak" || jsIncludes assocStr "quercus"))
  || ((jsIncludes treeStr "birch" || jsIncludes treeStr "birke")
      && (jsIncludes assocStr "birch" || jsIncludes assocStr "betula"))
  || jsIncludes treeStr assocStr || jsIncludes assocStr treeStr

/-- Tree species factor (0-15 points). -/
def treeSpeciesFactor (species : MushroomSpecies) (location : ForagingLocation) : ℕ :=
  if location.treeSpecies.isSome && species.treeAssociations.isSome
      && decide (0 < (species.treeAssociations.getD []).length) then
    let trees := location.treeSpecies.getD []
    let matchingTrees :=
      trees.filter fun tree => (species.treeAssociations.getD []).any (treeMatch tree)
    let matchRatio : ℚ := (matchingTrees.length : ℚ) / ((max trees.length 1 : ℕ) : ℚ)
    if 0.7 ≤ matchRatio then 15
    else if 0.5 ≤ matchRatio then 12
    else if 0.3 ≤ matchRatio then 10
    else if 0.1 ≤ matchRatio then 6
    else 3
  else 8

/-! ## Seasonal timing model (client functions) -/

/-- Client `getSingleSeasonScore`: score one atomic season label against
the 0-indexed current month. -/
def getSingleSeasonScore (season : String) (currentMonth : ℕ) : ℕ :=
  if season = "Spring" then
    if 2 ≤ currentMonth ∧ currentMonth ≤ 4 then 10
    else if currentMonth = 1 ∨ currentMonth = 5 then 6
    else 2
  else if season = "Summer" then
    if 5 ≤ currentMonth ∧ currentMonth ≤ 7 then 10
    else if currentMonth = 4 ∨ currentMonth = 8 then 6
    else 2
  else if season = "Fall" then
    if 8 ≤ currentMonth ∧ currentMonth ≤ 10 then 10
    else if currentMonth = 7 ∨ currentMonth = 11 then 6
    else 2
  else if season = "Winter" then
    if currentMonth = 11 ∨ currentMonth ≤ 1 then 10
    else if currentMonth = 2 ∨ currentMonth = 10 then 6
    else 2
  else 2

/-- Client `getSeasonalScore`: best score over the comma-separated season
atoms, with the source's `maxScore || getSingleSeasonScore(...)` fallback. -/
def getSeasonalScore (mushroomSeason : String) (currentMonth : ℕ) : ℕ :=
  if mushroomSeason = "All Year" then 10
  else
    let seasons := (jsSplit mushroomSeason ',').map jsTrim
    let maxScore :=
      seasons.foldl (fun acc s => max acc (getSingleSeasonScore s currentMonth)) 0
    if maxScore ≠ 0 then maxScore
    else getSingleSeasonScore mushroomSeason currentMonth

/-! ## Species suitability calculator (client) -/

/-- The eight named sub-scores plus the clamped total
(`ProbabilityFactors` in the source). -/
structure ProbabilityFactors where
  temperature : ℕ
  humidity : ℕ
  soilTemperature : ℕ
  recentRainfall : ℕ
  elevation : ℕ
  forestType : ℕ
  treeSpecies : ℕ
  season : ℕ
  totalScore : ℕ
  deriving DecidableEq, Repr

/-- Client `calculateSpeciesProbability`: run the eight factor scorers,
sum, clamp the total at 100, and return the probability with its breakdown.
The wall-clock month of the source's `getSeasonalScore` call is injected as
`currentMonth`. -/
def calculateSpeciesProbability (species : MushroomSpecies)
    (location : ForagingLocation) (weather : Option WeatherData)
    (currentMonth : ℕ) : ℕ × ProbabilityFactors :=
  let temperature := tempFactor species weather
  let humidity := humidityFactor species weather
  let soilTemperature := soilTempFactor species weather
  let recentRainfall := rainfallFactor weather
  let elevation := elevationFactor species location
  let forestType := forestTypeFactor species location
  let treeSpecies := treeSpeciesFactor species location
  let season := getSeasonalScore species.season currentMonth
  let totalScore :=
    min (temperature + humidity + soilTemperature + recentRainfall
      + elevation + forestType + treeSpecies + season) 100
  (totalScore,
    ⟨temperature, humidity, soilTemperature, recentRainfall, elevation,
     forestType, treeSpecies, season, totalScore⟩)

/-! ## Location aggregator (client) -/

/-- The index-keyed weights of the source's `reduce` over the top three
probabilities: `index === 0 ? 0.4 : index === 1 ? 0.35 : 0.25`. -/
def aggWeight (i : ℕ) : ℚ := if i = 0 then 0.4 else if i = 1 then 0.35 else 0.25

/-- The source's `topProbabilities.reduce((sum, prob, index) => sum + prob *
weight, 0)`. -/
def weightedSum (probs : List ℕ) : ℚ :=
  probs.enum.foldl (fun sum p => sum + (p.2 : ℚ) * aggWeight p.1) 0

/-- Result record of `calculateLocationProbability`. -/
structure LocationResult where
  probability : ℤ
  suitableSpecies : List String
  topSpecies : List MushroomSpecies
  deriving DecidableEq, Repr

/-- Client `calculateLocationProbability`: score every species, sort
descending by probability, filter the suitable list at threshold 35, keep
the top five species, and average the top three probabilities with weights
0.4/0.35/0.25. -/
def calculateLocationProbability (location : ForagingLocation)
    (allSpecies : List MushroomSpecies) (weather : Option WeatherData)
    (currentMonth : ℕ) : LocationResult :=
  if allSpecies.isEmpty then ⟨0, [], []⟩
  else
    let speciesProbabilities := allSpecies.map fun species =>
      (species, (calculateSpeciesProbability species location weather currentMonth).1)
    let sorted := speciesProbabilities.insertionSort fun a b => b.2 ≤ a.2
    let suitableSpecies := (sorted.filter fun sp => 35 ≤ sp.2).map fun sp => sp.1.name
    let topSpecies := (sorted.take 5).map fun sp => sp.1
    let topProbabilities := (sorted.take 3).map fun sp => sp.2
    let overallProbability : ℤ :=
      if 0 < topProbabilities.length then jsRound (weightedSum topProbabilities) else 0
    ⟨min overallProbability 100, suitableSpecies, topSpecies⟩

/-! ## Server-side per-species scorer
(`server/routes.ts`, probability-analysis endpoint) -/

/-- Server `getSingleSeasonScore`: same month windows as the client but
with the 15/8/3 tier values. -/
def serverGetSingleSeasonScore (season : String) (currentMonth : ℕ) : ℕ :=
  if season = "Spring" then
    if 2 ≤ currentMonth ∧ currentMonth ≤ 4 then 15
    else if currentMonth = 1 ∨ currentMonth = 5 then 8
    else 3
  else if season = "Summer" then
    if 5 ≤ currentMonth ∧ currentMonth ≤ 7 then 15
    else if currentMonth = 4 ∨ currentMonth = 8 then 8
    else 3
  else if season = "Fall" then
    if 8 ≤ currentMonth ∧ currentMonth ≤ 10 then 15
    else if currentMonth = 7 ∨ currentMonth = 11 then 8
    else 3
  else if season = "Winter" then
    if currentMonth = 11 ∨ currentMonth ≤ 1 then 15
    else if currentMonth = 2 ∨ currentMonth = 10 then 8
    else 3
  else 3

/-- Server `getSeasonScore`: "All Year" scores 15; otherwise the best atom
with the same `maxScore || ...` fallback as the client. -/
def serverGetSeasonScore (mushroomSeason : String) (currentMonth : ℕ) : ℕ :=
  if mushroomSeason = "All Year" then 15
  else
    let seasons := (jsSplit mushroomSeason ',').map jsTrim
    let maxScore :=
      seasons.foldl (fun acc s => max acc (serverGetSingleSeasonScore s currentMonth)) 0
    if maxScore ≠ 0 then maxScore
    else serverGetSingleSeasonScore mushroomSeason currentMonth

/-- Breakdown produced by the server's `speciesAnalysis` computation. -/
structure ServerFactors where
  elevation : ℕ
  forestType : ℕ
  treeSpecies : ℕ
  season : ℕ
  temperature : ℕ
  humidity : ℕ
  rainfall : ℕ
  soilTemp : ℕ
  total : ℕ
  deriving DecidableEq, Repr

/-- The per-species factor computation of the server's probability-analysis
endpoint (`speciesAnalysis` in `routes.ts`); its `probability` is the
`total` field. -/
def serverSpeciesFactors (species : MushroomSpecies)
    (location : ForagingLocation) (weather : Option WeatherData)
    (currentMonth : ℕ) : ServerFactors :=
  let elevation : ℕ :=
    if truthyZ location.elevation && truthyZ species.elevationMin
        && truthyZ species.elevationMax then
      let e := zval location.elevation
      if zval species.elevationMin ≤ e ∧ e ≤ zval species.elevationMax then 20
      else
        let closestDiff :=
          min |e - zval species.elevationMin| |e - zval species.elevationMax|
        if closestDiff ≤ 100 then 15
        else if closestDiff ≤ 200 then 10
        else if closestDiff ≤ 400 then 5
        else 0
    else 10
  let forestType : ℕ :=
    if truthyS location.forestType && species.forestTypes.isSome
        && decide (0 < (species.forestTypes.getD []).length) then
      let locationType := jsToLower (sval location.forestType)
      if (species.forestTypes.getD []).any fun t =>
          jsIncludes locationType (jsToLower t)
          || jsIncludes (jsToLower t) locationType
      then 15 else 5
    else 8
  let treeSpecies : ℕ :=
    if location.treeSpecies.isSome && species.treeAssociations.isSome
        && decide (0 < (species.treeAssociations.getD []).length) then
      let trees := location.treeSpecies.getD []
      let matchingTrees := trees.filter fun tree =>
        (species.treeAssociations.getD []).any fun assoc =>
          jsIncludes (jsToLower tree) (jsToLower assoc)
          || jsIncludes (jsToLower assoc) (jsToLower tree)
      let matchRatio : ℚ := (matchingTrees.length : ℚ) / ((max trees.length 1 : ℕ) : ℚ)
      if 0.5 ≤ matchRatio then 15
      else if 0.3 ≤ matchRatio then 10
      else if 0.1 ≤ matchRatio then 5
      else 2
    else 8
  let season := serverGetSeasonScore species.season currentMonth
  let temperature : ℕ :=
    match weather with
    | none => 8
    | some w =>
      if truthyQ species.optimalTemp && truthyQ w.temperature then
        let tempDiff := jsAbs (qval w.temperature - qval species.optimalTemp)
        if tempDiff ≤ 3 then 15
        else if tempDiff ≤ 6 then 10
        else if tempDiff ≤ 10 then 5
        else 2
      else if truthyQ w.temperature then
        if 15 ≤ qval w.temperature ∧ qval w.temperature ≤ 22 then 12
        else if 10 ≤ qval w.temperature ∧ qval w.temperature ≤ 25 then 8
        else 4
      else 8
  let humidity : ℕ :=
    match weather with
    | none => 5
    | some w =>
      if truthyQ species.optimalHumidity && truthyQ w.humidity then
        let humidityDiff := jsAbs (qval w.humidity - qval species.optimalHumidity)
        if humidityDiff ≤ 5 then 10
        else if humidityDiff ≤ 15 then 6
        else 3
      else if truthyQ w.humidity then
        if 80 ≤ qval w.humidity then 8
        else if 70 ≤ qval w.humidity then 6
        else 3
      else 5
  let rainfall : ℕ :=
    match weather with
    | none => 5
    | some w =>
      match w.lastRainfall with
      | some d =>
        if d ≤ 3 then 10
        else if d ≤ 7 then 6
        else if d ≤ 14 then 3
        else 1
      | none => 5
  let soilTemp : ℕ :=
    match weather with
    | none => 5
    | some w =>
      if truthyQ species.soilTempMin && truthyQ w.soilTemperature then
        if qval species.soilTempMin + 3 ≤ qval w.soilTemperature then 10
        else if qval species.soilTempMin ≤ qval w.soilTemperature then 6
        else if qval species.soilTempMin - 3 ≤ qval w.soilTemperature then 3
        else 1
      else if truthyQ w.soilTemperature then
        if 12 ≤ qval w.soilTemperature then 8
        else if 8 ≤ qval w.soilTemperature then 5
        else 2
      else 5
  let total :=
    min (elevation + forestType + treeSpecies + season + temperature
      + humidity + rainfall + soilTemp) 100
  ⟨elevation, forestType, treeSpecies, season, temperature, humidity,
   rainfall, soilTemp, total⟩

/-! ## Specification-side aggregation rule -/

/-- The aggregation rule as the specification states it (§4.5): sort the
per-species probabilities descending, take the top three, and weight them
0.4 / 0.35 / 0.25. Stated independently of the code's `reduce` loop so that
the claim theorem compares the two formulations. -/
def specWeightedTop3 (probs : List ℕ) : ℚ :=
  match probs.insertionSort (fun a b => b ≤ a) with
  | [] => 0
  | [p₁] => 0.4 * (p₁ : ℚ)
  | [p₁, p₂] => 0.4 * (p₁ : ℚ) + 0.35 * (p₂ : ℚ)
  | p₁ :: p₂ :: p₃ :: _ => 0.4 * (p₁ : ℚ) + 0.35 * (p₂ : ℚ) + 0.25 * (p₃ : ℚ)

/-! ## Concrete inputs used by the closed theorems -/

/-- A species with season "Fall" and every optional attribute absent. -/
def fallSpecies : MushroomSpecies :=
  ⟨"Porcini", "Boletus edulis", "Fall", none, none, none, none, none, none, none⟩

/-- A location with every optional attribute absent. -/
def bareLocation : ForagingLocation := ⟨none, none, none⟩

/-- A species whose only scoring-relevant attribute is one tree
association. -/
def oakSpecies : MushroomSpecies :=
  ⟨"Oak lover", "Quercophilus exemplaris", "Fall", none, none, none,
   some ["Oak"], none, none, none⟩

/-- A location whose tree-species list is present but empty. -/
def emptyTreesLocation : ForagingLocation := ⟨none, none, some []⟩

/-- A species whose optimal temperature is 2 °C (used to exhibit the
temperature-monotonicity failure at an observed 0 °C). -/
def optTwoSpecies : MushroomSpecies :=
  ⟨"Frost fungus", "Frigophilus exemplaris", "Fall", some 2, none, none,
   none, none, none, none⟩

/-- A weather snapshot whose only reading is the given temperature. -/
def tempOnlyWeather (t : ℚ) : WeatherData := ⟨some t, none, none, none⟩

/-- A weather snapshot whose only reading is the given humidity. -/
def humidityOnlyWeather (h : ℚ) : WeatherData := ⟨none, some h, none, none⟩

/-- A weather snapshot whose only reading is the given days-since-rainfall. -/
def rainOnlyWeather (d : ℤ) : WeatherData := ⟨none, none, none, some d⟩

/-- A species with optimal temperature 18 °C and optimal humidity 80 %. -/
def tunedSpecies : MushroomSpecies :=
  ⟨"Tuned", "Temperatus octodecim", "Fall", some 18, some 80, none,
   none, none, none, none⟩

/-! ## Helper lemmas -/

/-- The initial accumulator never exceeds a `foldl max`. -/
theorem init_le_foldl_max (l : List ℕ) (b : ℕ) : b ≤ l.foldl max b := by
  induction l generalizing b with
  | nil => exact le_refl b
  | cons x t ih => exact le_trans (le_max_left b x) (ih (max b x))

/-- Every member of the list is bounded by the `foldl max`. -/
theorem mem_le_foldl_max {l : List ℕ} {a : ℕ} (h : a ∈ l) (b : ℕ) :
    a ≤ l.foldl max b := by
  induction l generalizing b with
  | nil => cases h
  | cons x t ih =>
    rcases List.mem_cons.mp h with rfl | h
    · exact le_trans (le_max_right b a) (init_le_foldl_max t (max b a))
    · exact ih h (max b x)

/-- A `foldl max` is bounded by any common upper bound of the initial
accumulator and the members. -/
theorem foldl_max_le {l : List ℕ} {b c : ℕ} (hb : b ≤ c)
    (h : ∀ a ∈ l, a ≤ c) : l.foldl max b ≤ c := by
  induction l generalizing b with
  | nil => exact hb
  | cons x t ih =>
    exact ih (max_le hb (h x (by simp))) fun a ha => h a (List.mem_cons_of_mem x ha)

/-- A `foldl max` is either the initial accumulator or one of the members. -/
theorem foldl_max_init_or_mem (l : List ℕ) (b : ℕ) :
    l.foldl max b = b ∨ ∃ a ∈ l, l.foldl max b = a := by
  induction l generalizing b with
  | nil => exact Or.inl rfl
  | cons x t ih =>
    rcases ih (max b x) with h | ⟨a, ha, hfa⟩
    · rcases max_cases b x with ⟨hm, _⟩ | ⟨hm, _⟩
      · left
        simpa [hm] using h
      · right
        exact ⟨x, by simp, by simpa [hm] using h⟩
    · right
      exact ⟨a, List.mem_cons_of_mem x ha, by simpa using hfa⟩

/-- The function `splitCharList` never returns the empty list of pieces. -/
theorem splitCharList_ne_nil (c : Char) (l : List Char) :
    splitCharList c l ≠ [] := by
  induction l with
  | nil => simp [splitCharList]
  | cons x xs ih =>
    simp only [splitCharList]
    split
    · simp
    · split
      · simp
      · simp

/-- The function `jsSplit` never returns the empty list of pieces (as in JavaScript). -/
theorem jsSplit_ne_nil (s : String) (c : Char) : jsSplit s c ≠ [] := by
  unfold jsSplit
  simpa using splitCharList_ne_nil c s.data

/-! ## Factor range lemmas -/

/-- The client temperature factor always lands in `[5, 25]`. -/
theorem tempFactor_bounds (species : MushroomSpecies) (weather : Option WeatherData) :
    5 ≤ tempFactor species weather ∧ tempFactor species weather ≤ 25 := by
  simp only [tempFactor]
  split_ifs <;> omega

/-- The client humidity factor always lands in `[2, 20]`. -/
theorem humidityFactor_bounds (species : MushroomSpecies) (weather : Option WeatherData) :
    2 ≤ humidityFactor species weather ∧ humidityFactor species weather ≤ 20 := by
  simp only [humidityFactor]
  split_ifs <;> omega

/-- The client soil-temperature factor always lands in `[2, 15]`. -/
theorem soilTempFactor_bounds (species : MushroomSpecies) (weather : Option WeatherData) :
    2 ≤ soilTempFactor species weather ∧ soilTempFactor species weather ≤ 15 := by
  simp only [soilTempFactor]
  split_ifs <;> omega

/-- The client rainfall factor always lands in `[1, 15]`. -/
theorem rainfallFactor_bounds (weather : Option WeatherData) :
    1 ≤ rainfallFactor weather ∧ rainfallFactor weather ≤ 15 := by
  simp only [rainfallFactor]
  split
  · split_ifs <;> omega
  · omega

/-- The client elevation factor always lands in `[1, 10]`. -/
theorem elevationFactor_bounds (species : MushroomSpecies) (location : ForagingLocation) :
    1 ≤ elevationFactor species location ∧ elevationFactor species location ≤ 10 := by
  simp only [elevationFactor]
  split_ifs <;> omega

/-- The client forest-type factor always lands in `[3, 10]`. -/
theorem forestTypeFactor_bounds (species : MushroomSpecies) (location : ForagingLocation) :
    3 ≤ forestTypeFactor species location ∧ forestTypeFactor species location ≤ 10 := by
  simp only [forestTypeFactor]
  split_ifs <;> omega

/-- The client tree-species factor always lands in `[3, 15]`. -/
theorem treeSpeciesFactor_bounds (species : MushroomSpecies) (location : ForagingLocation) :
    3 ≤ treeSpeciesFactor species location ∧ treeSpeciesFactor species location ≤ 15 := by
  simp only [treeSpeciesFactor]
  split_ifs <;> omega

/-- A single atomic season always scores in `[2, 10]` (client tiers). -/
theorem getSingleSeasonScore_bounds (season : String) (currentMonth : ℕ) :
    2 ≤ getSingleSeasonScore season currentMonth ∧
      getSingleSeasonScore season currentMonth ≤ 10 := by
  simp only [getSingleSeasonScore]
  split_ifs <;> omega

/-- The client seasonal score always lands in `[2, 10]`; in particular the
`maxScore || ...` fallback in the source can never fire on a nonempty atom
list, because every atom scores at least 2. -/
theorem getSeasonalScore_bounds (mushroomSeason : String) (currentMonth : ℕ) :
    2 ≤ getSeasonalScore mushroomSeason currentMonth ∧
      getSeasonalScore mushroomSeason currentMonth ≤ 10 := by
  simp only [getSeasonalScore]
  split_ifs with hAll hMax
  · omega
  · rw [← List.foldl_map (fun s => getSingleSeasonScore s currentMonth)
        (fun acc v => max acc v)] at hMax ⊢
    constructor
    · rcases foldl_max_init_or_mem
          (((jsSplit mushroomSeason ',').map jsTrim).map
            fun s => getSingleSeasonScore s currentMonth) 0 with h | ⟨a, ha, hfa⟩
      · exact absurd h hMax
      · rcases List.mem_map.mp ha with ⟨s, _, rfl⟩
        rw [hfa]
        exact (getSingleSeasonScore_bounds s currentMonth).1
    · refine foldl_max_le (by omega) ?_
      intro a ha
      rcases List.mem_map.mp ha with ⟨s, _, rfl⟩
      exact (getSingleSeasonScore_bounds s currentMonth).2
  · exact getSingleSeasonScore_bounds mushroomSeason currentMonth

/-! ## Claim theorems -/

/-- C2: every factor sub-score of `calculateSpeciesProbability` lies within
its documented maximum (temperature 25, humidity 20, soil temperature 15,
recent rainfall 15, elevation 10, forest type 10, tree species 15, season
10; every sub-score is a natural number, hence at least 0), and the returned
probability is the sum of the eight sub-scores clamped to `[0, 100]`. -/
theorem c2_breakdown_bounded (species : MushroomSpecies)
    (location : ForagingLocation) (weather : Option WeatherData)
    (currentMonth : ℕ) :
    (calculateSpeciesProbability species location weather currentMonth).2.temperature ≤ 25 ∧
    (calculateSpeciesProbability species location weather currentMonth).2.humidity ≤ 20 ∧
    (calculateSpeciesProbability species location weather currentMonth).2.soilTemperature ≤ 15 ∧
    (calculateSpeciesProbability species location weather currentMonth).2.recentRainfall ≤ 15 ∧
    (calculateSpeciesProbability species location weather currentMonth).2.elevation ≤ 10 ∧
    (calculateSpeciesProbability species location weather currentMonth).2.forestType ≤ 10 ∧
    (calculateSpeciesProbability species location weather currentMonth).2.treeSpecies ≤ 15 ∧
    (calculateSpeciesProbability species location weather currentMonth).2.season ≤ 10 ∧
    (calculateSpeciesProbability species location weather currentMonth).1 =
      max (min ((calculateSpeciesProbability species location weather currentMonth).2.temperature
        + (calculateSpeciesProbability species location weather currentMonth).2.humidity
        + (calculateSpeciesProbability species location weather currentMonth).2.soilTemperature
        + (calculateSpeciesProbability species location weather currentMonth).2.recentRainfall
        + (calculateSpeciesProbability species location weather currentMonth).2.elevation
        + (calculateSpeciesProbability species location weather currentMonth).2.forestType
        + (calculateSpeciesProbability species location weather currentMonth).2.treeSpecies
        + (calculateSpeciesProbability species location weather currentMonth).2.season) 100) 0 := by
  refine ⟨(tempFactor_bounds species weather).2,
    (humidityFactor_bounds species weather).2,
    (soilTempFactor_bounds species weather).2,
    (rainfallFactor_bounds weather).2,
    (elevationFactor_bounds species location).2,
    (forestTypeFactor_bounds species location).2,
    (treeSpeciesFactor_bounds species location).2,
    (getSeasonalScore_bounds species.season currentMonth).2, ?_⟩
  rw [max_eq_left (Nat.zero_le _)]
  rfl

/-- C10: the probability returned by `calculateSpeciesProbability` is always
at least 19, hence strictly positive: every factor's lowest reachable branch
value is positive (temperature 5, humidity 2, soil temperature 2, rainfall 1,
elevation 1, forest type 3, tree species 3, season 2). -/
theorem c10_probability_at_least_nineteen (species : MushroomSpecies)
    (location : ForagingLocation) (weather : Option WeatherData)
    (currentMonth : ℕ) :
    19 ≤ (calculateSpeciesProbability species location weather currentMonth).1 := by
  have ht := (tempFactor_bounds species weather).1
  have hh := (humidityFactor_bounds species weather).1
  have hs := (soilTempFactor_bounds species weather).1
  have hr := (rainfallFactor_bounds weather).1
  have he := (elevationFactor_bounds species location).1
  have hf := (forestTypeFactor_bounds species location).1
  have htr := (treeSpeciesFactor_bounds species location).1
  have hse := (getSeasonalScore_bounds species.season currentMonth).1
  show 19 ≤ min (tempFactor species weather + humidityFactor species weather
    + soilTempFactor species weather + rainfallFactor weather
    + elevationFactor species location + forestTypeFactor species location
    + treeSpeciesFactor species location
    + getSeasonalScore species.season currentMonth) 100
  exact le_min (by omega) (by omega)

/-- C8: the location aggregator applied to an empty species catalog returns
probability 0 with empty suitable-species and top-species lists; being a
total function, the embedded aggregator cannot raise. -/
theorem c8_empty_catalog (location : ForagingLocation)
    (weather : Option WeatherData) (currentMonth : ℕ) :
    calculateLocationProbability location [] weather currentMonth =
      ⟨0, [], []⟩ := rfl

/-- C5: with the 0-indexed months of `Date.prototype.getMonth` (December =
11, January = 0, February = 1), the Winter tier of both the client and the
server single-season scorer gives December exactly the in-season score of
January and February: no off-by-one at the December-to-January wrap. -/
theorem c5_winter_wrap :
    getSingleSeasonScore "Winter" 11 = getSingleSeasonScore "Winter" 0 ∧
    getSingleSeasonScore "Winter" 11 = 10 ∧
    getSingleSeasonScore "Winter" 0 = 10 ∧
    getSingleSeasonScore "Winter" 1 = 10 ∧
    serverGetSingleSeasonScore "Winter" 11 = serverGetSingleSeasonScore "Winter" 0 ∧
    serverGetSingleSeasonScore "Winter" 11 = 15 ∧
    serverGetSingleSeasonScore "Winter" 0 = 15 ∧
    serverGetSingleSeasonScore "Winter" 1 = 15 := by
  decide

/-- C1 (divergence exhibit): at the all-defaults input — `fallSpecies` with
season "Fall" and no optional attributes, a bare location, no weather,
September (month index 8) — the client scorer returns probability 72 with
temperature sub-score 15, while the server's `speciesAnalysis` computation
returns probability 64 with temperature sub-score 8: the two scorers do not
return the same integers. -/
theorem c1_client_server_disagree :
    (calculateSpeciesProbability fallSpecies bareLocation none 8).1 = 72 ∧
    (serverSpeciesFactors fallSpecies bareLocation none 8).total = 64 ∧
    (calculateSpeciesProbability fallSpecies bareLocation none 8).2.temperature = 15 ∧
    (serverSpeciesFactors fallSpecies bareLocation none 8).temperature = 8 ∧
    (calculateSpeciesProbability fallSpecies bareLocation none 8).1 ≠
      (serverSpeciesFactors fallSpecies bareLocation none 8).total := by
  decide

/-- C3 (failing input): with tree associations `["Oak"]` and a
present-but-empty location tree list, the tree-species factor takes the
ratio branch (an empty array is truthy in JavaScript), computes match ratio
0 and scores the lowest "no match found" tier 3 — not the neutral no-data
default 8 that an absent tree list receives. -/
theorem c3_empty_tree_list_scores_lowest_tier :
    treeSpeciesFactor oakSpecies emptyTreesLocation = 3 ∧
    treeSpeciesFactor oakSpecies bareLocation = 8 ∧
    (calculateSpeciesProbability oakSpecies emptyTreesLocation none 8).2.treeSpecies = 3 := by
  refine ⟨?_, by decide, ?_⟩ <;>
  · show treeSpeciesFactor oakSpecies emptyTreesLocation = 3
    norm_num [treeSpeciesFactor, oakSpecies, emptyTreesLocation]

/-- When both the observed temperature and the species optimum are present
and nonzero, the client temperature factor is the five-tier function of the
absolute difference. -/
theorem tempFactor_of_known (species : MushroomSpecies) (w : WeatherData)
    (t opt : ℚ) (hw : w.temperature = some t) (ht : t ≠ 0)
    (ho : species.optimalTemp = some opt) (ho0 : opt ≠ 0) :
    tempFactor species (some w) =
      (if jsAbs (t - opt) ≤ 2 then 25
       else if jsAbs (t - opt) ≤ 5 then 20
       else if jsAbs (t - opt) ≤ 8 then 15
       else if jsAbs (t - opt) ≤ 12 then 10
       else 5) := by
  simp [tempFactor, hw, ho, truthyQ, qval, ht, ho0]

/-- When both the observed humidity and the species optimum are present and
nonzero, the client humidity factor is the five-tier function of the
absolute difference. -/
theorem humidityFactor_of_known (species : MushroomSpecies) (w : WeatherData)
    (u opt : ℚ) (hw : w.humidity = some u) (hu : u ≠ 0)
    (ho : species.optimalHumidity = some opt) (ho0 : opt ≠ 0) :
    humidityFactor species (some w) =
      (if jsAbs (u - opt) ≤ 5 then 20
       else if jsAbs (u - opt) ≤ 10 then 15
       else if jsAbs (u - opt) ≤ 15 then 12
       else if jsAbs (u - opt) ≤ 20 then 8
       else 5) := by
  simp [humidityFactor, hw, ho, truthyQ, qval, hu, ho0]

/-- C4 (counterexample): the temperature sub-score is NOT non-increasing in
`|observed − optimum|` over all weather snapshots: with optimum 2 °C, an
observed 0 °C (difference 2) is JavaScript-falsy and scores the no-data
default 15, while an observed 6 °C (difference 4) scores 20 — a strictly
larger difference with a strictly larger score. -/
theorem c4_temperature_not_monotone :
    jsAbs ((0 : ℚ) - 2) < jsAbs ((6 : ℚ) - 2) ∧
    tempFactor optTwoSpecies (some (tempOnlyWeather 0)) = 15 ∧
    tempFactor optTwoSpecies (some (tempOnlyWeather 6)) = 20 ∧
    ¬ (tempFactor optTwoSpecies (some (tempOnlyWeather 6)) ≤
        tempFactor optTwoSpecies (some (tempOnlyWeather 0))) := by
  have h0 : tempFactor optTwoSpecies (some (tempOnlyWeather 0)) = 15 := by
    norm_num [tempFactor, optTwoSpecies, tempOnlyWeather, truthyQ, qval, jsAbs]
  have h6 : tempFactor optTwoSpecies (some (tempOnlyWeather 6)) = 20 := by
    norm_num [tempFactor, optTwoSpecies, tempOnlyWeather, truthyQ, qval, jsAbs]
  exact ⟨by norm_num [jsAbs], h0, h6, by omega⟩

/-- C4 (amended): the rainfall sub-score is non-increasing in
days-since-rain; the temperature and humidity sub-scores are non-increasing
in the distance to the species optimum provided the observed reading and
the optimum are nonzero (a zero reading or optimum is JavaScript-falsy and
falls back to a default, breaking monotonicity — see the counterexample). -/
theorem c4_factor_monotonicity :
    (∀ (w₁ w₂ : WeatherData) (d₁ d₂ : ℤ),
      w₁.lastRainfall = some d₁ → w₂.lastRainfall = some d₂ → d₁ ≤ d₂ →
      rainfallFactor (some w₂) ≤ rainfallFactor (some w₁)) ∧
    (∀ (species : MushroomSpecies) (opt t₁ t₂ : ℚ) (w₁ w₂ : WeatherData),
      species.optimalTemp = some opt → opt ≠ 0 →
      w₁.temperature = some t₁ → t₁ ≠ 0 →
      w₂.temperature = some t₂ → t₂ ≠ 0 →
      jsAbs (t₁ - opt) ≤ jsAbs (t₂ - opt) →
      tempFactor species (some w₂) ≤ tempFactor species (some w₁)) ∧
    (∀ (species : MushroomSpecies) (opt u₁ u₂ : ℚ) (w₁ w₂ : WeatherData),
      species.optimalHumidity = some opt → opt ≠ 0 →
      w₁.humidity = some u₁ → u₁ ≠ 0 →
      w₂.humidity = some u₂ → u₂ ≠ 0 →
      jsAbs (u₁ - opt) ≤ jsAbs (u₂ - opt) →
      humidityFactor species (some w₂) ≤ humidityFactor species (some w₁)) := by
  refine ⟨?_, ?_, ?_⟩
  · intro w₁ w₂ d₁ d₂ h1 h2 hle
    have e1 : (some w₁).bind (fun x => x.lastRainfall) = some d₁ := by simp [h1]
    have e2 : (some w₂).bind (fun x => x.lastRainfall) = some d₂ := by simp [h2]
    simp only [rainfallFactor, e1, e2]
    split_ifs <;> omega
  · intro species opt t₁ t₂ w₁ w₂ ho ho0 h1 h10 h2 h20 hle
    rw [tempFactor_of_known species w₁ t₁ opt h1 h10 ho ho0,
        tempFactor_of_known species w₂ t₂ opt h2 h20 ho ho0]
    split_ifs <;> first | omega | (exfalso; linarith)
  · intro species opt u₁ u₂ w₁ w₂ ho ho0 h1 h10 h2 h20 hle
    rw [humidityFactor_of_known species w₁ u₁ opt h1 h10 ho ho0,
        humidityFactor_of_known species w₂ u₂ opt h2 h20 ho ho0]
    split_ifs <;> first | omega | (exfalso; linarith)

/-- C4 witness: the amended monotonicity statement applied at concrete
inputs (rain after 3 vs 9 days; temperature 20 vs 30 °C against optimum
18 °C; humidity 75 % vs 50 % against optimum 80 %). -/
theorem c4_factor_monotonicity_witness :
    rainfallFactor (some (rainOnlyWeather 9)) ≤
      rainfallFactor (some (rainOnlyWeather 3)) ∧
    tempFactor tunedSpecies (some (tempOnlyWeather 30)) ≤
      tempFactor tunedSpecies (some (tempOnlyWeather 20)) ∧
    humidityFactor tunedSpecies (some (humidityOnlyWeather 50)) ≤
      humidityFactor tunedSpecies (some (humidityOnlyWeather 75)) :=
  ⟨c4_factor_monotonicity.1 (rainOnlyWeather 3) (rainOnlyWeather 9) 3 9
      rfl rfl (by norm_num),
   c4_factor_monotonicity.2.1 tunedSpecies 18 20 30
      (tempOnlyWeather 20) (tempOnlyWeather 30)
      rfl (by norm_num) rfl (by norm_num) rfl (by norm_num) (by norm_num [jsAbs]),
   c4_factor_monotonicity.2.2 tunedSpecies 80 75 50
      (humidityOnlyWeather 75) (humidityOnlyWeather 50)
      rfl (by norm_num) rfl (by norm_num) rfl (by norm_num) (by norm_num [jsAbs])⟩

/-- C9: a zero observed temperature is JavaScript-falsy, so the temperature
factor takes the no-weather default branch and scores 15 for any species
with a known optimum, while observed readings of 1 or −1 °C (truthy) more
than 12 degrees from the optimum score the bottom tier 5. -/
theorem c9_zero_temperature_hits_default (species : MushroomSpecies)
    (location : ForagingLocation) (currentMonth : ℕ) (opt : ℚ)
    (w₀ w₁ w₂ : WeatherData)
    (ho : species.optimalTemp = some opt)
    (h0 : w₀.temperature = some 0)
    (h1 : w₁.temperature = some 1) (hfar1 : 12 < jsAbs (1 - opt))
    (h2 : w₂.temperature = some (-1)) (hfar2 : 12 < jsAbs (-1 - opt)) :
    (calculateSpeciesProbability species location (some w₀) currentMonth).2.temperature = 15 ∧
    (calculateSpeciesProbability species location (some w₁) currentMonth).2.temperature = 5 ∧
    (calculateSpeciesProbability species location (some w₂) currentMonth).2.temperature = 5 := by
  have ho0 : opt ≠ 0 := by
    intro hopt
    rw [hopt] at hfar1
    norm_num [jsAbs] at hfar1
  refine ⟨?_, ?_, ?_⟩
  · show tempFactor species (some w₀) = 15
    simp [tempFactor, h0, truthyQ]
  · show tempFactor species (some w₁) = 5
    rw [tempFactor_of_known species w₁ 1 opt h1 (by norm_num) ho ho0]
    split_ifs <;> first | rfl | (exfalso; linarith)
  · show tempFactor species (some w₂) = 5
    rw [tempFactor_of_known species w₂ (-1) opt h2 (by norm_num) ho ho0]
    split_ifs <;> first | rfl | (exfalso; linarith)

/-- C9 witness at a concrete species (optimum 18 °C) and snapshots reading
0, 1 and −1 °C. -/
theorem c9_zero_temperature_hits_default_witness :
    (calculateSpeciesProbability tunedSpecies bareLocation
      (some (tempOnlyWeather 0)) 8).2.temperature = 15 ∧
    (calculateSpeciesProbability tunedSpecies bareLocation
      (some (tempOnlyWeather 1)) 8).2.temperature = 5 ∧
    (calculateSpeciesProbability tunedSpecies bareLocation
      (some (tempOnlyWeather (-1))) 8).2.temperature = 5 :=
  c9_zero_temperature_hits_default tunedSpecies bareLocation 8 18
    (tempOnlyWeather 0) (tempOnlyWeather 1) (tempOnlyWeather (-1))
    rfl rfl rfl (by norm_num [jsAbs]) rfl (by norm_num [jsAbs])

/-- The client seasonal score of a non-"All Year" label equals the fold of
the atom scores: the `maxScore || ...` fallback branch is dead because the
atom list is never empty and every atom scores at least 2. -/
theorem getSeasonalScore_eq_foldl (s : String) (m : ℕ) (h : s ≠ "All Year") :
    getSeasonalScore s m =
      (((jsSplit s ',').map jsTrim).map
        fun a => getSingleSeasonScore a m).foldl max 0 := by
  simp only [getSeasonalScore, if_neg h]
  rw [← List.foldl_map (fun a => getSingleSeasonScore a m) (fun acc v => max acc v)]
  split_ifs with hMax
  · rfl
  · exfalso
    push_neg at hMax
    rcases List.exists_mem_of_ne_nil ((jsSplit s ',').map jsTrim)
        (by simpa using jsSplit_ne_nil s ',') with ⟨a, ha⟩
    have hle := mem_le_foldl_max
      (List.mem_map_of_mem (fun a => getSingleSeasonScore a m) ha) 0
    rw [hMax] at hle
    have hle2 : getSingleSeasonScore a m ≤ 0 := hle
    have h2 := (getSingleSeasonScore_bounds a m).1
    omega

/-- C6: for a non-"All Year" season label the seasonal score is exactly the
maximum of the single-season scores of its trimmed comma-separated atoms:
it bounds every atom's score and is attained by one of them; in particular
"Summer, Fall" in September (month index 8) scores the larger of its two
atom scores. -/
theorem c6_compound_season_max (s : String) (m : ℕ) (h : s ≠ "All Year") :
    (∀ a ∈ (jsSplit s ',').map jsTrim,
      getSingleSeasonScore a m ≤ getSeasonalScore s m) ∧
    (∃ a ∈ (jsSplit s ',').map jsTrim,
      getSeasonalScore s m = getSingleSeasonScore a m) ∧
    getSeasonalScore "Summer, Fall" 8 =
      max (getSingleSeasonScore "Summer" 8) (getSingleSeasonScore "Fall" 8) := by
  rw [getSeasonalScore_eq_foldl s m h]
  refine ⟨?_, ?_, by decide⟩
  · intro a ha
    exact mem_le_foldl_max
      (List.mem_map_of_mem (fun a => getSingleSeasonScore a m) ha) 0
  · rcases foldl_max_init_or_mem
        (((jsSplit s ',').map jsTrim).map fun a => getSingleSeasonScore a m) 0
        with h0 | ⟨v, hv, hfv⟩
    · exfalso
      rcases List.exists_mem_of_ne_nil ((jsSplit s ',').map jsTrim)
          (by simpa using jsSplit_ne_nil s ',') with ⟨a, ha⟩
      have hle := mem_le_foldl_max
        (List.mem_map_of_mem (fun a => getSingleSeasonScore a m) ha) 0
      rw [h0] at hle
      have hle2 : getSingleSeasonScore a m ≤ 0 := hle
      have h2 := (getSingleSeasonScore_bounds a m).1
      omega
    · rcases List.mem_map.mp hv with ⟨a, ha, rfl⟩
      exact ⟨a, ha, hfv⟩

/-- C6 witness: the compound-season rule instantiated at "Summer, Fall" in
September. -/
theorem c6_compound_season_max_witness :
    (∀ a ∈ (jsSplit "Summer, Fall" ',').map jsTrim,
      getSingleSeasonScore a 8 ≤ getSeasonalScore "Summer, Fall" 8) ∧
    (∃ a ∈ (jsSplit "Summer, Fall" ',').map jsTrim,
      getSeasonalScore "Summer, Fall" 8 = getSingleSeasonScore a 8) ∧
    getSeasonalScore "Summer, Fall" 8 =
      max (getSingleSeasonScore "Summer" 8) (getSingleSeasonScore "Fall" 8) :=
  c6_compound_season_max "Summer, Fall" 8 (by decide)

/-! ## Lemmas for the location aggregator -/

/-- Evaluates `weightedSum` of a single probability. -/
theorem weightedSum_one (a : ℕ) : weightedSum [a] = 0.4 * (a : ℚ) := by
  show (0 : ℚ) + (a : ℚ) * aggWeight 0 = 0.4 * (a : ℚ)
  simp [aggWeight]
  ring

/-- Evaluates `weightedSum` of two probabilities. -/
theorem weightedSum_two (a b : ℕ) :
    weightedSum [a, b] = 0.4 * (a : ℚ) + 0.35 * (b : ℚ) := by
  show (0 : ℚ) + (a : ℚ) * aggWeight 0 + (b : ℚ) * aggWeight 1 = _
  simp [aggWeight]
  ring

/-- Evaluates `weightedSum` of three probabilities. -/
theorem weightedSum_three (a b c : ℕ) :
    weightedSum [a, b, c] = 0.4 * (a : ℚ) + 0.35 * (b : ℚ) + 0.25 * (c : ℚ) := by
  show (0 : ℚ) + (a : ℚ) * aggWeight 0 + (b : ℚ) * aggWeight 1
      + (c : ℚ) * aggWeight 2 = _
  simp [aggWeight]
  ring

/-- Rounding a nonnegative rational with `Math.round` is nonnegative. -/
theorem jsRound_nonneg {x : ℚ} (h : 0 ≤ x) : 0 ≤ jsRound x := by
  unfold jsRound
  have hx : (0 : ℚ) ≤ x + 0.5 := by
    have : (0 : ℚ) < 0.5 := by norm_num
    linarith
  exact Int.floor_nonneg.mpr hx

/-- Mapping the probability projection through the pairwise ordered insert
yields the ordered insert of the projections (the two comparators test the
same inequality). -/
theorem map_snd_orderedInsert (x : MushroomSpecies × ℕ)
    (l : List (MushroomSpecies × ℕ)) :
    (List.orderedInsert (fun a b => b.2 ≤ a.2) x l).map (fun sp => sp.2) =
      List.orderedInsert (fun a b => b ≤ a) x.2 (l.map fun sp => sp.2) := by
  induction l with
  | nil => rfl
  | cons y t ih =>
    by_cases hxy : y.2 ≤ x.2
    · simp [List.orderedInsert, hxy]
    · simp [List.orderedInsert, hxy, ih]

/-- Sorting the (species, probability) pairs by descending probability and
projecting to probabilities is the same as sorting the projected
probabilities descending. -/
theorem map_snd_insertionSort (l : List (MushroomSpecies × ℕ)) :
    (l.insertionSort fun a b => b.2 ≤ a.2).map (fun sp => sp.2) =
      (l.map fun sp => sp.2).insertionSort fun a b => b ≤ a := by
  induction l with
  | nil => rfl
  | cons x t ih =>
    simp only [List.insertionSort, List.map_cons, map_snd_orderedInsert, ih]

/-- Taking three from a list of at least three keeps the first three. -/
theorem take_three_cons (a b c : ℕ) (l : List ℕ) :
    (a :: b :: c :: l).take 3 = [a, b, c] := rfl

/-- Taking three from a two-element list keeps both. -/
theorem take_three_two (a b : ℕ) : ([a, b] : List ℕ).take 3 = [a, b] := rfl

/-- Taking three from a one-element list keeps it. -/
theorem take_three_one (a : ℕ) : ([a] : List ℕ).take 3 = [a] := rfl

/-- The specification-side weighted top-three average equals the code's
`reduce` over the first three entries of the descending sort. -/
theorem specWeightedTop3_eq (probs : List ℕ) :
    specWeightedTop3 probs =
      weightedSum ((probs.insertionSort fun a b => b ≤ a).take 3) := by
  unfold specWeightedTop3
  rcases hS : probs.insertionSort fun a b => b ≤ a with _ | ⟨p₁, _ | ⟨p₂, _ | ⟨p₃, rest⟩⟩⟩
  · rfl
  · rw [take_three_one, weightedSum_one]
  · rw [take_three_two, weightedSum_two]
  · rw [take_three_cons, weightedSum_three]

/-- Every aggregation weight is nonnegative. -/
theorem aggWeight_nonneg (i : ℕ) : 0 ≤ aggWeight i := by
  unfold aggWeight
  split_ifs <;> norm_num

/-- The weighted accumulation only grows from its initial value. -/
theorem foldl_weight_ge (L : List (ℕ × ℕ)) (b : ℚ) :
    b ≤ L.foldl (fun sum p => sum + (p.2 : ℚ) * aggWeight p.1) b := by
  induction L generalizing b with
  | nil => exact le_refl b
  | cons x t ih =>
    refine le_trans ?_ (ih (b + (x.2 : ℚ) * aggWeight x.1))
    exact le_add_of_nonneg_right
      (mul_nonneg (by positivity) (aggWeight_nonneg x.1))

/-- A weighted sum of probabilities is nonnegative. -/
theorem weightedSum_nonneg (l : List ℕ) : 0 ≤ weightedSum l :=
  foldl_weight_ge l.enum 0

/-- C7: for a nonempty catalog the aggregator's overall probability equals
the 0.4/0.35/0.25-weighted average of the top three per-species
probabilities (sorted descending), rounded with `Math.round` and clamped to
`[0, 100]` (`specWeightedTop3` is the specification-side formulation of
that weighted average). -/
theorem c7_overall_probability (location : ForagingLocation)
    (weather : Option WeatherData) (currentMonth : ℕ)
    (allSpecies : List MushroomSpecies) (h : allSpecies ≠ []) :
    (calculateLocationProbability location allSpecies weather currentMonth).probability =
      max (min (jsRound (specWeightedTop3 (allSpecies.map fun species =>
        (calculateSpeciesProbability species location weather currentMonth).1))) 100) 0 := by
  have hc : ¬ (allSpecies.isEmpty = true) := by
    simp [List.isEmpty_iff, h]
  have key : ((List.insertionSort (fun a b => b.2 ≤ a.2)
        (allSpecies.map fun species =>
          (species,
            (calculateSpeciesProbability species location weather currentMonth).1))).take 3).map
        (fun sp => sp.2)
      = (List.insertionSort (fun a b => b ≤ a)
          (allSpecies.map fun species =>
            (calculateSpeciesProbability species location weather currentMonth).1)).take 3 := by
    rw [List.map_take, map_snd_insertionSort, List.map_map]
    rfl
  have hlen : 0 < (List.insertionSort (fun a b : ℕ => b ≤ a)
      (allSpecies.map fun species =>
        (calculateSpeciesProbability species location weather currentMonth).1)).length := by
    rw [(List.perm_insertionSort _ _).length_eq, List.length_map]
    exact List.length_pos.mpr h
  have hpos : 0 < ((List.insertionSort (fun a b : ℕ => b ≤ a)
      (allSpecies.map fun species =>
        (calculateSpeciesProbability species location weather currentMonth).1)).take 3).length := by
    rw [List.length_take]
    exact lt_min (by norm_num) hlen
  simp only [calculateLocationProbability]
  rw [if_neg hc]
  dsimp only
  rw [key, if_pos hpos, specWeightedTop3_eq]
  have hnn : (0 : ℤ) ≤ min (jsRound (weightedSum
      ((List.insertionSort (fun a b : ℕ => b ≤ a)
        (allSpecies.map fun species =>
          (calculateSpeciesProbability species location weather currentMonth).1)).take 3))) 100 :=
    le_min (jsRound_nonneg (weightedSum_nonneg _)) (by norm_num)
  rw [max_eq_left hnn]

/-- C7 witness: the aggregation equality instantiated at a singleton
catalog. -/
theorem c7_overall_probability_witness :
    (calculateLocationProbability bareLocation [fallSpecies] none 8).probability =
      max (min (jsRound (specWeightedTop3 ([fallSpecies].map fun species =>
        (calculateSpeciesProbability species bareLocation none 8).1))) 100) 0 :=
  c7_overall_probability bareLocation none 8 [fallSpecies] (by simp)

end AlpineForecast
